import Mathlib

/-!
# The `model` package of articles-api: the `Article` record and the `ArticleState` interface

Source: `articles-api/internal/domain/model/article.go`.

The file declares one struct type, `Article`, with six fields, and one
interface, `ArticleState`, with one method.  It declares no function and no
method.  The embedding below is:

* `int64`      : Go's signed 64-bit integers, as the integers of that range;
  Go `string` is `String`, the empty string being `""` in both;
* `Article`    : the struct, field for field, in declaration order.  The types
  `url` and `Author` are declared elsewhere in the package and `time.Time`
  in the standard library; all three are type parameters here;
* `Assign`, `Article.assign` : the Go assignment statement `a.f = v`, one
  constructor per declared field;
* `Literal`, `Literal.build`, `Article.zero` : Go's keyed composite literal
  `Article{...}` (an absent key leaves the field at its zero value) and the
  zero value `Article{}`;
* `ArticleState` : the interface, as the class of types with a method
  `State` returning a string.
-/

namespace model

/-- Go `int64`: the integers from `math.MinInt64` to `math.MaxInt64`. -/
abbrev int64 : Type :=
  { n : Int // -9223372036854775808 ≤ n ∧ n ≤ 9223372036854775807 }

/-- The zero value of `int64`. -/
def int64.zero : int64 := ⟨0, by constructor <;> decide⟩

/-- The struct `Article` of `article.go`, lines 5 to 13.  `url`, `Time`
(for `time.Time`) and `Author` are the field types this file does not
declare. -/
structure Article (url Time Author : Type) where
  /-- Source comment: "Should be non-zero if in database". -/
  id : int64
  Title : String
  MarkdownContent : String
  CoverImage : url
  created : Time
  Author : Author

/-- The interface `ArticleState` of `article.go`, lines 15 to 17: a type
implements it when it has a method `State() string`. -/
class ArticleState (σ : Type) where
  State : σ → String

/-- An assignment statement `a.f = v` on an `Article`: the field and the
value assigned, of the field's type. -/
inductive Assign (url Time Author : Type) where
  | id (v : int64)
  | Title (v : String)
  | MarkdownContent (v : String)
  | CoverImage (v : url)
  | created (v : Time)
  | Author (v : Author)

/-- Effect of the assignment statement `a.f = v`: the struct value with
field `f` replaced by `v`. -/
def Article.assign {url Time Author : Type} (a : Article url Time Author) :
    Assign url Time Author → Article url Time Author
  | .id v => { a with id := v }
  | .Title v => { a with Title := v }
  | .MarkdownContent v => { a with MarkdownContent := v }
  | .CoverImage v => { a with CoverImage := v }
  | .created v => { a with created := v }
  | .Author v => { a with Author := v }

/-- The zero value `Article{}`: every field at the zero value of its type.
`default` stands for the zero value of the three parameter types. -/
def Article.zero {url Time Author : Type} [Inhabited url] [Inhabited Time]
    [Inhabited Author] : Article url Time Author where
  id := int64.zero
  Title := ""
  MarkdownContent := ""
  CoverImage := default
  created := default
  Author := default

/-- A keyed composite literal `Article{k₁: v₁, ...}`: each field key is
present with a value or absent. -/
structure Literal (url Time Author : Type) where
  id : Option int64
  Title : Option String
  MarkdownContent : Option String
  CoverImage : Option url
  created : Option Time
  Author : Option Author

/-- Value of a composite literal: a present key gives the field its value,
an absent key leaves the field at the zero value of its type. -/
def Literal.build {url Time Author : Type} [Inhabited url] [Inhabited Time]
    [Inhabited Author] (l : Literal url Time Author) : Article url Time Author where
  id := l.id.getD int64.zero
  Title := l.Title.getD ""
  MarkdownContent := l.MarkdownContent.getD ""
  CoverImage := l.CoverImage.getD default
  created := l.created.getD default
  Author := l.Author.getD default

/-- The two classes the specification sorts an `Article` into. -/
inductive Persistence where
  | notPersisted
  | persisted
  deriving DecidableEq, Repr

/-- Modelled from the spec: the classifier of an `Article` as persisted or
not.  `article.go` declares no such function, only the field `id` and its
comment "Should be non-zero if in database".  Spec: "An Article constructed
with id = 0 is classified as not persisted; any construction with id ≠ 0 is
classified as persisted." -/
def Article.classify {url Time Author : Type} (a : Article url Time Author) :
    Persistence :=
  if a.id.val = 0 then Persistence.notPersisted else Persistence.persisted

/-- Claim C1.  Every `Article`, whatever 64-bit signed value its `id` holds
(negative values included), is classified as not persisted exactly when
`id = 0` and as persisted exactly when `id ≠ 0`; the two classes exclude each
other and together cover every `Article`. -/
theorem classify_iff_id_zero {url Time Author : Type} (a : Article url Time Author) :
    (a.classify = Persistence.notPersisted ↔ a.id.val = 0) ∧
    (a.classify = Persistence.persisted ↔ a.id.val ≠ 0) ∧
    ¬ (a.classify = Persistence.notPersisted ∧ a.classify = Persistence.persisted) ∧
    (a.classify = Persistence.notPersisted ∨ a.classify = Persistence.persisted) := by
  unfold Article.classify
  by_cases h : a.id.val = 0 <;> simp [h]

/-- Claim C2.  Assigning a value `v` to any one of the fields `Title`,
`MarkdownContent`, `CoverImage`, `created` and `Author` of an `Article` makes
that field read `v` and leaves each of the other five fields, `id` included,
at the value it had before the assignment. -/
theorem assign_field_frame {url Time Author : Type} (a : Article url Time Author) :
    (∀ v : String,
      (a.assign (Assign.Title v)).Title = v ∧
      (a.assign (Assign.Title v)).id = a.id ∧
      (a.assign (Assign.Title v)).MarkdownContent = a.MarkdownContent ∧
      (a.assign (Assign.Title v)).CoverImage = a.CoverImage ∧
      (a.assign (Assign.Title v)).created = a.created ∧
      (a.assign (Assign.Title v)).Author = a.Author) ∧
    (∀ v : String,
      (a.assign (Assign.MarkdownContent v)).MarkdownContent = v ∧
      (a.assign (Assign.MarkdownContent v)).id = a.id ∧
      (a.assign (Assign.MarkdownContent v)).Title = a.Title ∧
      (a.assign (Assign.MarkdownContent v)).CoverImage = a.CoverImage ∧
      (a.assign (Assign.MarkdownContent v)).created = a.created ∧
      (a.assign (Assign.MarkdownContent v)).Author = a.Author) ∧
    (∀ v : url,
      (a.assign (Assign.CoverImage v)).CoverImage = v ∧
      (a.assign (Assign.CoverImage v)).id = a.id ∧
      (a.assign (Assign.CoverImage v)).Title = a.Title ∧
      (a.assign (Assign.CoverImage v)).MarkdownContent = a.MarkdownContent ∧
      (a.assign (Assign.CoverImage v)).created = a.created ∧
      (a.assign (Assign.CoverImage v)).Author = a.Author) ∧
    (∀ v : Time,
      (a.assign (Assign.created v)).created = v ∧
      (a.assign (Assign.created v)).id = a.id ∧
      (a.assign (Assign.created v)).Title = a.Title ∧
      (a.assign (Assign.created v)).MarkdownContent = a.MarkdownContent ∧
      (a.assign (Assign.created v)).CoverImage = a.CoverImage ∧
      (a.assign (Assign.created v)).Author = a.Author) ∧
    (∀ v : Author,
      (a.assign (Assign.Author v)).Author = v ∧
      (a.assign (Assign.Author v)).id = a.id ∧
      (a.assign (Assign.Author v)).Title = a.Title ∧
      (a.assign (Assign.Author v)).MarkdownContent = a.MarkdownContent ∧
      (a.assign (Assign.Author v)).CoverImage = a.CoverImage ∧
      (a.assign (Assign.Author v)).created = a.created) := by
  refine ⟨?_, ?_, ?_, ?_, ?_⟩ <;> intro v <;>
    exact ⟨rfl, rfl, rfl, rfl, rfl, rfl⟩

/-- Claim C4.  Two `Article` values are equal exactly when their six declared
fields `id`, `Title`, `MarkdownContent`, `CoverImage`, `created` and `Author`
are pairwise equal: nothing besides the declared fields takes part in
equality. -/
theorem Article_eq_iff_fields {url Time Author : Type} (a b : Article url Time Author) :
    a = b ↔
      a.id = b.id ∧ a.Title = b.Title ∧ a.MarkdownContent = b.MarkdownContent ∧
      a.CoverImage = b.CoverImage ∧ a.created = b.created ∧ a.Author = b.Author := by
  constructor
  · intro h
    subst h
    exact ⟨rfl, rfl, rfl, rfl, rfl, rfl⟩
  · intro h
    cases a
    cases b
    simp only [Article.mk.injEq]
    exact h

/-- A sequence of assignments none of which writes a non-zero `id` keeps a
zero `id` at zero. -/
theorem foldl_assign_id_zero {url Time Author : Type}
    (ops : List (Assign url Time Author)) :
    ∀ a : Article url Time Author, a.id.val = 0 →
      (∀ op ∈ ops, ∀ v : int64, op = Assign.id v → v.val = 0) →
      (ops.foldl Article.assign a).id.val = 0 := by
  induction ops with
  | nil => intro a ha _; exact ha
  | cons op rest ih =>
    intro a ha h
    rw [List.foldl_cons]
    apply ih
    · cases op with
      | id v => exact h (Assign.id v) (List.mem_cons_self _ _) v rfl
      | Title v => exact ha
      | MarkdownContent v => exact ha
      | CoverImage v => exact ha
      | created v => exact ha
      | Author v => exact ha
    · intro op1 hop1
      exact h op1 (List.mem_cons_of_mem _ hop1)

/-- Claim C6.  The zero-value `Article` has `id = 0` and is classified as not
persisted; so is every `Article` built by a composite literal that has no
`id` key, whichever of the other fields it sets.  Such an `Article` stays
classified as not persisted through any sequence of assignments none of
which writes a non-zero `id`, and is classified as persisted once a non-zero
`id` is assigned. -/
theorem literal_without_id_not_persisted {url Time Author : Type}
    [Inhabited url] [Inhabited Time] [Inhabited Author]
    (l : Literal url Time Author) (h : l.id = none) :
    (Article.zero : Article url Time Author).id.val = 0 ∧
    (Article.zero : Article url Time Author).classify = Persistence.notPersisted ∧
    l.build.id.val = 0 ∧
    l.build.classify = Persistence.notPersisted ∧
    (∀ ops : List (Assign url Time Author),
      (∀ op ∈ ops, ∀ v : int64, op = Assign.id v → v.val = 0) →
      (ops.foldl Article.assign l.build).classify = Persistence.notPersisted) ∧
    (∀ v : int64, v.val ≠ 0 →
      (l.build.assign (Assign.id v)).classify = Persistence.persisted) := by
  have hb : l.build.id.val = 0 := by
    simp [Literal.build, h, int64.zero]
  refine ⟨rfl, rfl, hb, ?_, ?_, ?_⟩
  · simp [Article.classify, hb]
  · intro ops hops
    simp [Article.classify, foldl_assign_id_zero ops l.build hb hops]
  · intro v hv
    simp [Article.classify, Article.assign, hv]

/-- Instance of `literal_without_id_not_persisted`: the literal
`Article{Title: "Go"}`, with strings for `url` and `Author` and an integer
instant for `time.Time`. -/
theorem literal_without_id_not_persisted_witness :
    (⟨none, some "Go", none, none, none, none⟩ : Literal String Int String).id = none ∧
    ((Article.zero : Article String Int String).id.val = 0 ∧
     (Article.zero : Article String Int String).classify = Persistence.notPersisted ∧
     (Literal.build (⟨none, some "Go", none, none, none, none⟩ :
        Literal String Int String)).id.val = 0 ∧
     (Literal.build (⟨none, some "Go", none, none, none, none⟩ :
        Literal String Int String)).classify = Persistence.notPersisted ∧
     (∀ ops : List (Assign String Int String),
       (∀ op ∈ ops, ∀ v : int64, op = Assign.id v → v.val = 0) →
       (ops.foldl Article.assign (Literal.build (⟨none, some "Go", none, none, none, none⟩ :
          Literal String Int String))).classify = Persistence.notPersisted) ∧
     (∀ v : int64, v.val ≠ 0 →
       ((Literal.build (⟨none, some "Go", none, none, none, none⟩ :
          Literal String Int String)).assign (Assign.id v)).classify =
         Persistence.persisted)) :=
  ⟨rfl, literal_without_id_not_persisted
      (⟨none, some "Go", none, none, none, none⟩ : Literal String Int String) rfl⟩

end model
